import Mathlib

/-!
# open-camera-remote: the capture state machine of `src/main.c`

A shallow embedding of the watch application's global state, its button
handlers, the countdown loop and the picture-taken callback, followed by the
properties of the capture state machine.

Conventions of the embedding

* The C globals become the fields of `State`, under their C names.
* `s_camera_state` is a `char *` that is only ever `NULL` (no initialiser) or
  one of the three `CAMERA_STATE_*` constants, and is only read through
  `strcmp`.  It is an `Option CameraState`; `strcmp` on `NULL` has no defined
  result, so the three `is_camera_state_*` tests return `none` there and every
  handler that runs such a test returns `Option State`.
* The Pebble calls (`text_layer_set_text`, `layer_set_hidden`,
  `app_timer_register`, `app_timer_cancel`, `vibes_double_pulse`) act on the
  display and timer fields of `State` and append to `State.trace`, the ordered
  record of everything the program did.  `APP_LOG` lines are not modelled.
* Timers are untimed: a pending timer may fire whenever it is pending.  The
  delay is recorded, never compared.
* The C `int`s are `Int`.  The guards of the source keep `s_timer_value` in
  0..30 and `s_timer_countdown_value` in 0..31 in every reachable state, far
  from the bounds of a 32-bit `int`.
-/

namespace OpenCameraRemote

/-! ## Data model -/

/-- The three values `s_camera_state` is compared against:
`CAMERA_STATE_READY`, `CAMERA_STATE_IN_PROGRESS`, `CAMERA_STATE_CANCELLED`. -/
inductive CameraState
  | ready
  | in_progress
  | cancelled
  deriving DecidableEq, Repr

/-- The two values of `s_current_text_layer`: the strings "start" and "main". -/
inductive CurrentTextLayer
  | start
  | main
  deriving DecidableEq, Repr

/-- The three text layers of the main window. -/
inductive TextLayer
  | s_start_layer
  | s_main_layer
  | s_countdown_layer
  deriving DecidableEq, Repr

/-- A layer handle: the layer of a text layer, or the canvas. -/
inductive Layer
  | text_layer_get_layer (t : TextLayer)
  | s_canvas_layer
  deriving DecidableEq, Repr

/-- The two functions that are ever handed to `app_timer_register`. -/
inductive Callback
  | camera_countdown_loop
  | set_camera_state_layer_ready
  deriving DecidableEq, Repr

/-- The two outbound message keys used by `main.c`. -/
inductive MessageKey
  | KEY_APP_STATUS_CHECK
  | KEY_CAPTURE
  deriving DecidableEq, Repr

/-- A registered, not yet fired and not cancelled, application timer. -/
structure AppTimer where
  handle : Nat
  timeout_ms : Nat
  callback : Callback
  deriving DecidableEq, Repr

/-- One observable action of the program, in the order it was performed. -/
inductive Effect
  | text_layer_set_text (layer : TextLayer) (text : String)
  | layer_set_hidden (layer : Layer) (hidden : Bool)
  | camera_state (c : CameraState)
  | app_timer_register (handle : Nat) (timeout_ms : Nat) (callback : Callback)
  | app_timer_cancel (handle : Nat)
  | send_int_app_message (key : MessageKey) (value : Int)
  | alert_window_push
  | vibes_double_pulse
  deriving DecidableEq, Repr

/-- The globals of `main.c` together with the platform state they drive. -/
structure State where
  s_timer_value : Int
  s_timer_countdown_value : Int
  s_current_text_layer : CurrentTextLayer
  s_camera_state : Option CameraState
  countdown_timer : Option Nat
  timers : List AppTimer
  next_handle : Nat
  main_text : String
  countdown_text : String
  start_hidden : Bool
  main_hidden : Bool
  countdown_hidden : Bool
  canvas_hidden : Bool
  trace : List Effect
  deriving DecidableEq, Repr

/-- The user, the companion application, the message layer and the timer
service, as seen by the program. -/
inductive Event
  | up_click
  | select_click
  | down_click
  | picture_taken
  | message_timeout
  | app_timer (handle : Nat)
  deriving DecidableEq, Repr

/-! ## Helper methods -/

/-- The size of a `char *` on the 32-bit ARM target, `sizeof(buffer)` in
`intToStrPointer`. -/
def SIZEOF_CHAR_PTR : Nat := 4

/-- The text produced by `intToStrPointer`: `snprintf(buffer, sizeof(buffer),
"%d", i)` keeps at most `sizeof(buffer) - 1` characters of the decimal. -/
def intToStrPointer (i : Int) : String :=
  String.mk ((toString i).toList.take (SIZEOF_CHAR_PTR - 1))

/-! ## Platform calls -/

/-- Appends one effect to the record. -/
def emit (e : Effect) (s : State) : State :=
  { s with trace := s.trace ++ [e] }

/-- Pebble `text_layer_set_text`.  The start layer's text is set once at
load and never read, so it has no field. -/
def text_layer_set_text (layer : TextLayer) (text : String) (s : State) : State :=
  emit (Effect.text_layer_set_text layer text)
    (match layer with
     | TextLayer.s_start_layer => s
     | TextLayer.s_main_layer => { s with main_text := text }
     | TextLayer.s_countdown_layer => { s with countdown_text := text })

/-- Pebble `layer_set_hidden`. -/
def layer_set_hidden (layer : Layer) (hidden : Bool) (s : State) : State :=
  emit (Effect.layer_set_hidden layer hidden)
    (match layer with
     | Layer.text_layer_get_layer TextLayer.s_start_layer => { s with start_hidden := hidden }
     | Layer.text_layer_get_layer TextLayer.s_main_layer => { s with main_hidden := hidden }
     | Layer.text_layer_get_layer TextLayer.s_countdown_layer =>
         { s with countdown_hidden := hidden }
     | Layer.s_canvas_layer => { s with canvas_hidden := hidden })

/-- Pebble `app_timer_register`: the new timer gets the handle
`s.next_handle`, which is what the call returns. -/
def app_timer_register (timeout_ms : Nat) (callback : Callback) (s : State) : State :=
  emit (Effect.app_timer_register s.next_handle timeout_ms callback)
    { s with
      timers := s.timers ++ [AppTimer.mk s.next_handle timeout_ms callback]
      next_handle := s.next_handle + 1 }

/-- Pebble `app_timer_cancel`: the timer with that handle, when one is
pending, will not fire; a handle that is no longer pending is ignored. -/
def app_timer_cancel (handle : Nat) (s : State) : State :=
  emit (Effect.app_timer_cancel handle)
    { s with timers := s.timers.filter (fun t => t.handle != handle) }

/-- Pebble `vibes_double_pulse`. -/
def vibes_double_pulse (s : State) : State :=
  emit Effect.vibes_double_pulse s

/-- Modelled from the spec: `alert_window_push` of `windows/alert_window.h`
is not among the sources; the alert surface takes no parameter, returns
nothing and is fire-and-forget, so a call is recorded and nothing else
changes. -/
def alert_window_push (s : State) : State :=
  emit Effect.alert_window_push s

/-- Modelled from the spec: `send_int_app_message_with_callback` of
`comm/comm.h` is not among the sources; sending an intent dispatches one
message and returns immediately, the timeout being a separate later event
(`Event.message_timeout`).  The callback argument is `message_timeout_handler`
at every call site. -/
def send_int_app_message_with_callback (key : MessageKey) (value : Int) (s : State) : State :=
  emit (Effect.send_int_app_message key value) s

/-! ## States -/

def showing_start_layer (s : State) : Bool :=
  s.s_current_text_layer == CurrentTextLayer.start

def is_camera_state_ready (s : State) : Option Bool :=
  s.s_camera_state.map (fun c => c == CameraState.ready)

def is_camera_state_in_progress (s : State) : Option Bool :=
  s.s_camera_state.map (fun c => c == CameraState.in_progress)

def is_camera_state_cancelled (s : State) : Option Bool :=
  s.s_camera_state.map (fun c => c == CameraState.cancelled)

def ensure_main_text_layer_showing (s : State) : State :=
  if showing_start_layer s then
    let s1 := layer_set_hidden (Layer.text_layer_get_layer TextLayer.s_start_layer) true s
    let s2 := layer_set_hidden (Layer.text_layer_get_layer TextLayer.s_main_layer) false s1
    let s3 := layer_set_hidden Layer.s_canvas_layer false s2
    { s3 with s_current_text_layer := CurrentTextLayer.main }
  else s

/-- Assignment to `s_camera_state`, recorded in the trace. -/
def set_s_camera_state (c : CameraState) (s : State) : State :=
  emit (Effect.camera_state c) { s with s_camera_state := some c }

def set_camera_state_layer_ready (s : State) : State :=
  let s1 := set_s_camera_state CameraState.ready s
  let s2 := text_layer_set_text TextLayer.s_main_layer (intToStrPointer s1.s_timer_value) s1
  let s3 := layer_set_hidden (Layer.text_layer_get_layer TextLayer.s_countdown_layer) true s2
  layer_set_hidden Layer.s_canvas_layer false s3

def set_camera_state_layer_in_progress (s : State) : State :=
  let s1 := set_s_camera_state CameraState.in_progress s
  let s2 := layer_set_hidden (Layer.text_layer_get_layer TextLayer.s_countdown_layer) false s1
  layer_set_hidden Layer.s_canvas_layer true s2

/-! ## App message error handlers -/

def message_timeout_handler (s : State) : State :=
  alert_window_push s

/-! ## Countdown camera -/

def camera_countdown_loop (s : State) : Option State :=
  if s.s_timer_countdown_value ≤ 0 then
    let h := s.next_handle
    let s1 := app_timer_register 5000 Callback.set_camera_state_layer_ready s
    some { s1 with countdown_timer := some h }
  else
    (is_camera_state_cancelled s).bind fun cancelled =>
      if cancelled then
        let s1 := text_layer_set_text TextLayer.s_countdown_layer "Timer cancelled." s
        some (app_timer_register 2000 Callback.set_camera_state_layer_ready s1)
      else
        let s1 := { s with s_timer_countdown_value := s.s_timer_countdown_value - 1 }
        let s2 := text_layer_set_text TextLayer.s_main_layer
          (intToStrPointer s1.s_timer_countdown_value) s1
        let h := s2.next_handle
        let s3 := app_timer_register 1000 Callback.camera_countdown_loop s2
        some { s3 with countdown_timer := some h }

def start_camera_countdown (s : State) : Option State :=
  let s1 := { s with s_timer_countdown_value := s.s_timer_value + 1 }
  let s2 := text_layer_set_text TextLayer.s_countdown_layer "Taking picture in..." s1
  let s3 := set_camera_state_layer_in_progress s2
  camera_countdown_loop s3

def on_picture_taken (s : State) : Option State :=
  (is_camera_state_in_progress s).bind fun in_progress =>
    if !in_progress then
      some s
    else
      let s1 := match s.countdown_timer with
        | some h => app_timer_cancel h s
        | none => s
      let s2 := text_layer_set_text TextLayer.s_countdown_layer "Picture Taken" s1
      let s3 := if s2.s_timer_countdown_value > 0 then
          text_layer_set_text TextLayer.s_main_layer "0" s2
        else s2
      let s4 := vibes_double_pulse s3
      some (app_timer_register 2000 Callback.set_camera_state_layer_ready s4)

/-! ## Buttons -/

def increment_camera_timer (s : State) : State :=
  if s.s_timer_value < 30 then
    let s1 := { s with s_timer_value := s.s_timer_value + 1 }
    text_layer_set_text TextLayer.s_main_layer (intToStrPointer s1.s_timer_value) s1
  else s

def decrement_camera_timer (s : State) : State :=
  if s.s_timer_value > 0 then
    let s1 := { s with s_timer_value := s.s_timer_value - 1 }
    text_layer_set_text TextLayer.s_main_layer (intToStrPointer s1.s_timer_value) s1
  else s

def start_layer_click_handler (s : State) : State :=
  let s1 := ensure_main_text_layer_showing s
  let s2 := set_s_camera_state CameraState.ready s1
  send_int_app_message_with_callback MessageKey.KEY_APP_STATUS_CHECK s2.s_timer_value s2

def up_click_handler (s : State) : Option State :=
  if showing_start_layer s then
    some (start_layer_click_handler s)
  else
    (is_camera_state_ready s).bind fun ready =>
      if ready then some (increment_camera_timer s) else some s

def select_click_handler (s : State) : Option State :=
  if showing_start_layer s then
    some (start_layer_click_handler s)
  else
    (is_camera_state_ready s).bind fun ready =>
      if ready then
        (start_camera_countdown s).map fun s1 =>
          send_int_app_message_with_callback MessageKey.KEY_CAPTURE s1.s_timer_value s1
      else
        (is_camera_state_in_progress s).bind fun in_progress =>
          if in_progress then
            let s1 := set_s_camera_state CameraState.cancelled s
            some (send_int_app_message_with_callback MessageKey.KEY_CAPTURE s1.s_timer_value s1)
          else some s

def down_click_handler (s : State) : Option State :=
  if showing_start_layer s then
    some (start_layer_click_handler s)
  else
    (is_camera_state_ready s).bind fun ready =>
      if ready then some (decrement_camera_timer s) else some s

/-! ## The event loop -/

/-- The globals after `init` and `main_window_load`: the statics are zero
(`s_camera_state` and `countdown_timer` are `NULL`), the start layer is
showing, the main layer holds the text of `s_timer_value`, and main layer,
countdown layer and canvas are hidden. -/
def initial_state : State where
  s_timer_value := 0
  s_timer_countdown_value := 0
  s_current_text_layer := CurrentTextLayer.start
  s_camera_state := none
  countdown_timer := none
  timers := []
  next_handle := 1
  main_text := intToStrPointer 0
  countdown_text := "Taking picture in..."
  start_hidden := false
  main_hidden := true
  countdown_hidden := true
  canvas_hidden := true
  trace := []

/-- The callback a timer was registered with. -/
def run_callback (c : Callback) (s : State) : Option State :=
  match c with
  | Callback.camera_countdown_loop => camera_countdown_loop s
  | Callback.set_camera_state_layer_ready => some (set_camera_state_layer_ready s)

/-- The timer service fires the pending timer with this handle: the timer
stops being pending and its callback runs.  A handle that is not pending
fires nothing. -/
def fire_app_timer (handle : Nat) (s : State) : Option State :=
  match s.timers.find? (fun t => t.handle == handle) with
  | none => some s
  | some t =>
      run_callback t.callback { s with timers := s.timers.filter (fun t => t.handle != handle) }

/-- One event delivered to the single execution context. -/
def step (e : Event) (s : State) : Option State :=
  match e with
  | Event.up_click => up_click_handler s
  | Event.select_click => select_click_handler s
  | Event.down_click => down_click_handler s
  | Event.picture_taken => on_picture_taken s
  | Event.message_timeout => some (message_timeout_handler s)
  | Event.app_timer h => fire_app_timer h s

/-- Events delivered one after the other. -/
def run : List Event → State → Option State
  | [], s => some s
  | e :: es, s => (step e s).bind (run es)

/-- A state the program can be in: one reached from `initial_state`. -/
def Reachable (s : State) : Prop :=
  ∃ es : List Event, run es initial_state = some s

/-! ## Specification-side definitions -/

/-- The clamped adjustment of the specification: an up press adds one but
never goes above 30, a down press subtracts one but never goes below 0; no
other event adjusts the value. -/
def clamped_adjust (v : Int) (e : Event) : Int :=
  match e with
  | Event.up_click => min (v + 1) 30
  | Event.down_click => max (v - 1) 0
  | _ => v

/-- The main screen is showing and the camera state is Ready. -/
def ReadyOnMain (s : State) : Prop :=
  s.s_current_text_layer = CurrentTextLayer.main ∧ s.s_camera_state = some CameraState.ready

instance (s : State) : Decidable (ReadyOnMain s) :=
  inferInstanceAs (Decidable (_ ∧ _))

/-- The event is an up or down press and it is handled while the main screen
is showing and the camera state is Ready. -/
def adjusting (e : Event) (s : State) : Bool :=
  (e == Event.up_click || e == Event.down_click) &&
    (s.s_current_text_layer == CurrentTextLayer.main &&
      s.s_camera_state == some CameraState.ready)

/-- No event of the run is an adjusting press in the state it is handled in. -/
def no_adjustment : List Event → State → Bool
  | [], _ => true
  | e :: es, s =>
    !adjusting e s &&
      (match step e s with
       | none => true
       | some s1 => no_adjustment es s1)

/-! ## Traces and timer runs -/

/-- The texts put on the main layer, in order. -/
def main_texts : List Effect → List String
  | [] => []
  | Effect.text_layer_set_text TextLayer.s_main_layer t :: es => t :: main_texts es
  | _ :: es => main_texts es

/-- The number of times the camera state was set to Ready. -/
def ready_count (tr : List Effect) : Nat :=
  tr.count (Effect.camera_state CameraState.ready)

/-- The number of fallback timers armed: registrations of
`set_camera_state_layer_ready` with the 5000 ms delay. -/
def fallback_count (tr : List Effect) : Nat :=
  tr.countP (fun e =>
    match e with
    | Effect.app_timer_register _ 5000 Callback.set_camera_state_layer_ready => true
    | _ => false)

/-- The values `n, n - 1, ...`, `j` of them. -/
def countdown_from (n : Nat) : Nat → List Nat
  | 0 => []
  | j + 1 => n :: countdown_from (n - 1) j

/-- The timer service fires the pending timer that was registered first; with
nothing pending nothing happens. -/
def fire_next (s : State) : Option State :=
  match s.timers with
  | [] => some s
  | t :: _ => step (Event.app_timer t.handle) s

/-- Only timers fire, `n` times. -/
def fire_all : Nat → State → Option State
  | 0, s => some s
  | n + 1, s => (fire_next s).bind (fire_all n)

/-- The effects of `j` countdown ticks that start with the counter at `k` and
the last handle at `h`. -/
def tick_effects (h : Nat) (k : Nat) : Nat → List Effect
  | 0 => []
  | j + 1 =>
    Effect.text_layer_set_text TextLayer.s_main_layer (intToStrPointer ((k - 1 : Nat) : Int)) ::
      Effect.app_timer_register (h + 1) 1000 Callback.camera_countdown_loop ::
      tick_effects (h + 1) (k - 1) j

/-- A countdown run is live and alone: the counter is `k`, the only pending
timer is the tick with handle `h`, and the camera state is not Cancelled. -/
def Counting (s : State) (k : Nat) (h : Nat) : Prop :=
  s.s_timer_countdown_value = (k : Int) ∧
    s.timers = [AppTimer.mk h 1000 Callback.camera_countdown_loop] ∧
    s.next_handle = h + 1 ∧
    ∃ c, s.s_camera_state = some c ∧ c ≠ CameraState.cancelled

/-- The effects of select pressed in the Ready state with timer value `n`
and next handle `h`. -/
def start_effects (h : Nat) (n : Nat) : List Effect :=
  [Effect.text_layer_set_text TextLayer.s_countdown_layer "Taking picture in...",
   Effect.camera_state CameraState.in_progress,
   Effect.layer_set_hidden (Layer.text_layer_get_layer TextLayer.s_countdown_layer) false,
   Effect.layer_set_hidden Layer.s_canvas_layer true,
   Effect.text_layer_set_text TextLayer.s_main_layer (intToStrPointer (n : Int)),
   Effect.app_timer_register h 1000 Callback.camera_countdown_loop,
   Effect.send_int_app_message MessageKey.KEY_CAPTURE (n : Int)]

/-- The effects of `set_camera_state_layer_ready` with timer value `n`. -/
def ready_effects (n : Int) : List Effect :=
  [Effect.camera_state CameraState.ready,
   Effect.text_layer_set_text TextLayer.s_main_layer (intToStrPointer n),
   Effect.layer_set_hidden (Layer.text_layer_get_layer TextLayer.s_countdown_layer) true,
   Effect.layer_set_hidden Layer.s_canvas_layer false]

/-! ## Concrete states and runs of the examples -/

/-- The state after a run, or the starting state when the run fails. -/
def after (es : List Event) (s : State) : State :=
  (run es s).getD s

/-- Start screen confirmed, then two up presses: Ready with timer value 2. -/
def ready_two : State :=
  after [Event.select_click, Event.up_click, Event.up_click] initial_state

/-- Start screen confirmed, then three up presses: Ready with timer value 3. -/
def ready_three : State :=
  after [Event.select_click, Event.up_click, Event.up_click, Event.up_click] initial_state

/-- A capture started from `ready_two`: in progress, counter 2, one tick
pending. -/
def counting_two : State :=
  after [Event.select_click] ready_two

/-- A capture with presses, a tick, a cancellation, a message timeout and a
picture-taken notification. -/
def capture_events : List Event :=
  [Event.select_click, Event.up_click, Event.down_click, Event.app_timer 1,
    Event.select_click, Event.message_timeout, Event.picture_taken, Event.app_timer 2]

/-! ## Invariants, cancellation and race scenarios -/

/-- What every handler guarantees about its result: the camera state stays
initialised, the trace is extended, handles only grow, and a pending timer is
either one that was pending before or one with a fresh handle. -/
def Extends (s s1 : State) : Prop :=
  s1.s_camera_state ≠ none ∧ (∃ tr, s1.trace = s.trace ++ tr) ∧
    s.next_handle ≤ s1.next_handle ∧
    ∀ t ∈ s1.timers, t ∈ s.timers ∨ s.next_handle ≤ t.handle

/-- The effect of showing "Timer cancelled." on the countdown layer. -/
def cancel_text : Effect :=
  Effect.text_layer_set_text TextLayer.s_countdown_layer "Timer cancelled."

/-- In this part of a trace, the camera state is not set to Ready before
"Timer cancelled." has been shown. -/
def cancelled_before_ready : List Effect → Bool
  | [] => true
  | e :: es =>
    if e = cancel_text then true
    else if e = Effect.camera_state CameraState.ready then false
    else cancelled_before_ready es

/-- Neither "Timer cancelled." nor a setting of Ready occurs. -/
def Quiet (tr : List Effect) : Prop :=
  ∀ e ∈ tr, e ≠ cancel_text ∧ e ≠ Effect.camera_state CameraState.ready

/-- The invariant of a cancellation that started with the trace `base`:
either the state is Cancelled with a positive counter, only ticks are pending
and nothing relevant has happened yet, or the text has been shown with no
Ready before it. -/
def CancelInv (base : List Effect) (s : State) : Prop :=
  s.s_camera_state ≠ none ∧
    ((s.s_camera_state = some CameraState.cancelled ∧
        s.s_current_text_layer = CurrentTextLayer.main ∧
        0 < s.s_timer_countdown_value ∧
        (∀ t ∈ s.timers, t.callback = Callback.camera_countdown_loop) ∧
        ∃ tr, s.trace = base ++ tr ∧ Quiet tr) ∨
      ∃ a b, s.trace = base ++ (a ++ cancel_text :: b) ∧ Quiet a)

/-- Timer value 0, capture started: in progress, "0" shown, counter 0, the
tick with handle 1 pending. -/
def zero_counting : State :=
  after [Event.select_click, Event.select_click] initial_state

/-- A capture from `ready_two` whose picture-taken notification arrived during
the countdown: in progress, counter 2, the settle timer with handle 2
pending. -/
def picture_pending : State :=
  after [Event.picture_taken] counting_two

/-- Timer value 0, countdown over, select pressed while the fallback timer
(handle 2) is pending: the camera state is Cancelled. -/
def waiting_cancelled : State :=
  after [Event.select_click, Event.select_click, Event.app_timer 1, Event.select_click]
    initial_state

/-- Timer value 0, countdown over, fallback timer (handle 2) pending, in
progress. -/
def waiting_in_progress : State :=
  after [Event.select_click, Event.select_click, Event.app_timer 1] initial_state

/-- Two picture-taken notifications during one capture, then select pressed
after each of the two settle timers. -/
def double_run_events : List Event :=
  [Event.select_click, Event.up_click, Event.up_click, Event.select_click,
    Event.picture_taken, Event.picture_taken, Event.app_timer 2, Event.select_click,
    Event.app_timer 3, Event.select_click]

/-- Timer value 2, one capture with two picture-taken notifications, the first
settle timer (handle 2) fired: Ready on the main screen while the second
settle timer (handle 3) is still pending. -/
def stale_ready : State :=
  after [Event.select_click, Event.up_click, Event.up_click, Event.select_click,
    Event.picture_taken, Event.picture_taken, Event.app_timer 2] initial_state

/-- As `stale_ready`, then a capture started and the second settle timer
fired under it: Ready on the main screen while the tick with handle 4 is
still pending. -/
def stale_tick : State :=
  after [Event.select_click, Event.app_timer 3] stale_ready

/-- The number of pending `camera_countdown_loop` callbacks. -/
def pending_ticks (s : State) : Nat :=
  (s.timers.filter (fun t => t.callback == Callback.camera_countdown_loop)).length

/-! ## Timer value: clamping (C1) -/

theorem press_ready_step (s : State) (e : Event) (he : e = Event.up_click ∨ e = Event.down_click)
    (h : ReadyOnMain s) (h0 : 0 ≤ s.s_timer_value) (h30 : s.s_timer_value ≤ 30) :
    ∃ s1, step e s = some s1 ∧ ReadyOnMain s1 ∧
      s1.s_timer_value = clamped_adjust s.s_timer_value e := by
  obtain ⟨hl, hc⟩ := h
  rcases he with rfl | rfl
  · refine ⟨increment_camera_timer s, ?_, ?_, ?_⟩
    · simp [step, up_click_handler, showing_start_layer, is_camera_state_ready, hl, hc]
    · unfold increment_camera_timer ReadyOnMain
      split <;> simp [text_layer_set_text, emit, hl, hc]
    · unfold increment_camera_timer clamped_adjust
      split
      · simp [text_layer_set_text, emit]; omega
      · simp; omega
  · refine ⟨decrement_camera_timer s, ?_, ?_, ?_⟩
    · simp [step, down_click_handler, showing_start_layer, is_camera_state_ready, hl, hc]
    · unfold decrement_camera_timer ReadyOnMain
      split <;> simp [text_layer_set_text, emit, hl, hc]
    · unfold decrement_camera_timer clamped_adjust
      split
      · simp [text_layer_set_text, emit]; omega
      · simp; omega

theorem clamped_adjust_range (v : Int) (e : Event) (h0 : 0 ≤ v) (h30 : v ≤ 30) :
    0 ≤ clamped_adjust v e ∧ clamped_adjust v e ≤ 30 := by
  unfold clamped_adjust
  split <;> omega

/-- A run of up and down presses from a Ready state with the timer value in
range succeeds, stays Ready and in range, and computes the clamped fold. -/
theorem run_presses (es : List Event) (s : State)
    (hes : ∀ e ∈ es, e = Event.up_click ∨ e = Event.down_click)
    (h : ReadyOnMain s) (h0 : 0 ≤ s.s_timer_value) (h30 : s.s_timer_value ≤ 30) :
    ∃ s1, run es s = some s1 ∧ ReadyOnMain s1 ∧
      s1.s_timer_value = es.foldl clamped_adjust s.s_timer_value ∧
      0 ≤ s1.s_timer_value ∧ s1.s_timer_value ≤ 30 := by
  induction es generalizing s with
  | nil => exact ⟨s, rfl, h, rfl, h0, h30⟩
  | cons e es ih =>
    obtain ⟨s1, hs1, hr1, hv1⟩ :=
      press_ready_step s e (hes e (List.mem_cons_self e es)) h h0 h30
    have hb := clamped_adjust_range s.s_timer_value e h0 h30
    obtain ⟨s2, hs2, hr2, hv2, hb2⟩ :=
      ih s1 (fun x hx => hes x (List.mem_cons_of_mem e hx)) hr1 (hv1 ▸ hb.1) (hv1 ▸ hb.2)
    refine ⟨s2, ?_, hr2, ?_, hb2⟩
    · simp [run, hs1, hs2]
    · simp [List.foldl, hv2, hv1]

/-- C1: from a Ready state on the main screen whose timer value is in
[0,30], every sequence of up and down presses is handled without failure, and
after each press of the sequence (every prefix `es.take k`) the camera state is
still Ready, the timer value lies in [0,30] and it equals the fold of the
presses handled so far with the clamped adjustment of the specification. -/
theorem timer_value_clamped_fold (es : List Event) (s : State) (k : Nat)
    (hes : ∀ e ∈ es, e = Event.up_click ∨ e = Event.down_click)
    (h : ReadyOnMain s) (h0 : 0 ≤ s.s_timer_value) (h30 : s.s_timer_value ≤ 30) :
    ∃ s1, run (es.take k) s = some s1 ∧ ReadyOnMain s1 ∧
      s1.s_timer_value = (es.take k).foldl clamped_adjust s.s_timer_value ∧
      0 ≤ s1.s_timer_value ∧ s1.s_timer_value ≤ 30 :=
  run_presses (es.take k) s (fun e he => hes e (List.mem_of_mem_take he)) h h0 h30

theorem timer_value_clamped_fold_witness :
    ReadyOnMain ready_two ∧ ready_two.s_timer_value = 2 ∧
      ∃ s1, run ([Event.up_click, Event.down_click, Event.down_click, Event.down_click,
          Event.down_click, Event.up_click].take 5) ready_two = some s1 ∧
        ReadyOnMain s1 ∧ s1.s_timer_value = 0 := by
  have hr : ReadyOnMain ready_two := ⟨by decide, by decide⟩
  obtain ⟨s1, h1, h2, h3, _⟩ := timer_value_clamped_fold
    [Event.up_click, Event.down_click, Event.down_click, Event.down_click,
      Event.down_click, Event.up_click] ready_two 5 (by decide) hr (by decide) (by decide)
  refine ⟨hr, by decide, s1, h1, h2, ?_⟩
  rw [h3]
  decide

/-! ## The Ready states a capture starts from -/

theorem up_presses_reach (k : Nat) (s : State) (v : Nat) (hr : ReadyOnMain s)
    (hv : s.s_timer_value = (v : Int)) (hk : v + k ≤ 30) (ht : s.timers = []) :
    ∃ s1, run (List.replicate k Event.up_click) s = some s1 ∧ ReadyOnMain s1 ∧
      s1.s_timer_value = ((v + k : Nat) : Int) ∧ s1.timers = [] := by
  induction k generalizing s v with
  | zero => exact ⟨s, rfl, hr, by simpa using hv, ht⟩
  | succ k ih =>
    have hlt : s.s_timer_value < 30 := by omega
    have hstep : step Event.up_click s = some (increment_camera_timer s) := by
      simp [step, up_click_handler, showing_start_layer, is_camera_state_ready, hr.1, hr.2]
    obtain ⟨s1, h1, hr1, hv1, ht1⟩ := ih (increment_camera_timer s) (v + 1)
      (by simpa [increment_camera_timer, hlt, ReadyOnMain, text_layer_set_text, emit] using hr)
      (by
        have hvlt : v < 30 := by omega
        simp [increment_camera_timer, text_layer_set_text, emit, hv, hvlt])
      (by omega)
      (by simpa [increment_camera_timer, hlt, text_layer_set_text, emit] using ht)
    refine ⟨s1, by simp [List.replicate, run, hstep, h1], hr1, ?_, ht1⟩
    rw [hv1]
    congr 1
    omega

/-- Every timer value N in [0,30] is configured in a reachable Ready state on
the main screen with no timer pending: confirm the start screen, then press up
N times. -/
theorem ready_state_reachable (n : Nat) (hn : n ≤ 30) :
    ∃ s, Reachable s ∧ ReadyOnMain s ∧ s.s_timer_value = (n : Int) ∧ s.timers = [] := by
  obtain ⟨s1, h1, hr1, hv1, ht1⟩ := up_presses_reach n (start_layer_click_handler initial_state) 0
    ⟨by decide, by decide⟩ (by decide) (by omega) (by decide)
  refine ⟨s1, ⟨Event.select_click :: List.replicate n Event.up_click, ?_⟩, hr1, ?_, ht1⟩
  · have h0 : step Event.select_click initial_state =
        some (start_layer_click_handler initial_state) := by decide
    simp [run, h0, h1]
  · simpa using hv1

/-! ## Timer value: frame (C10) -/

theorem camera_countdown_loop_timer_value (s s1 : State) (h : camera_countdown_loop s = some s1) :
    s1.s_timer_value = s.s_timer_value := by
  unfold camera_countdown_loop at h
  split at h
  · simp [app_timer_register, emit] at h
    subst h; rfl
  · cases hc : is_camera_state_cancelled s with
    | none => simp [hc] at h
    | some c =>
      cases c <;> simp [hc, app_timer_register, text_layer_set_text, emit] at h <;>
        (subst h; rfl)

theorem start_layer_click_handler_timer_value (s : State) :
    (start_layer_click_handler s).s_timer_value = s.s_timer_value := by
  unfold start_layer_click_handler ensure_main_text_layer_showing
  split <;> simp [send_int_app_message_with_callback, set_s_camera_state, layer_set_hidden, emit]

theorem set_camera_state_layer_ready_timer_value (s : State) :
    (set_camera_state_layer_ready s).s_timer_value = s.s_timer_value := by
  simp [set_camera_state_layer_ready, set_s_camera_state, layer_set_hidden,
    text_layer_set_text, emit]

theorem on_picture_taken_timer_value (s s1 : State) (h : on_picture_taken s = some s1) :
    s1.s_timer_value = s.s_timer_value := by
  unfold on_picture_taken at h
  cases hc : is_camera_state_in_progress s with
  | none => simp [hc] at h
  | some c =>
    cases c
    · simp [hc] at h; subst h; rfl
    · simp [hc] at h
      subst h
      cases s.countdown_timer <;>
        simp [app_timer_register, vibes_double_pulse, text_layer_set_text, app_timer_cancel, emit] <;>
        split <;> simp

theorem select_click_handler_timer_value (s s1 : State) (h : select_click_handler s = some s1) :
    s1.s_timer_value = s.s_timer_value := by
  unfold select_click_handler at h
  split at h
  · simp at h; subst h; exact start_layer_click_handler_timer_value s
  · cases hr : is_camera_state_ready s with
    | none => simp [hr] at h
    | some r =>
      cases r
      · simp [hr] at h
        cases hp : is_camera_state_in_progress s with
        | none => simp [hp] at h
        | some p =>
          cases p <;> simp [hp, send_int_app_message_with_callback, set_s_camera_state, emit] at h <;>
            (subst h; rfl)
      · simp [hr] at h
        obtain ⟨s2, hs2, rfl⟩ := h
        unfold start_camera_countdown at hs2
        have := camera_countdown_loop_timer_value _ _ hs2
        simpa [send_int_app_message_with_callback, emit, set_camera_state_layer_in_progress,
          set_s_camera_state, layer_set_hidden, text_layer_set_text] using this

theorem fire_app_timer_timer_value (h : Nat) (s s1 : State) (hs : fire_app_timer h s = some s1) :
    s1.s_timer_value = s.s_timer_value := by
  unfold fire_app_timer at hs
  split at hs
  · simp at hs; subst hs; rfl
  · rename_i t _
    cases hcb : t.callback <;> simp [run_callback, hcb] at hs
    · have := camera_countdown_loop_timer_value _ _ hs
      simpa using this
    · subst hs; exact set_camera_state_layer_ready_timer_value _

theorem step_timer_value (e : Event) (s s1 : State) (hstep : step e s = some s1)
    (hq : adjusting e s = false) : s1.s_timer_value = s.s_timer_value := by
  cases e with
  | up_click =>
    simp only [step, up_click_handler] at hstep
    split at hstep
    · simp at hstep; subst hstep; exact start_layer_click_handler_timer_value s
    · rename_i hl
      cases hr : is_camera_state_ready s with
      | none => simp [hr] at hstep
      | some r =>
        cases r
        · simp [hr] at hstep; subst hstep; rfl
        · exfalso
          simp [is_camera_state_ready] at hr
          simp [showing_start_layer] at hl
          cases hcl : s.s_current_text_layer
          · exact hl hcl
          · simp [adjusting, hr, hcl] at hq
  | down_click =>
    simp only [step, down_click_handler] at hstep
    split at hstep
    · simp at hstep; subst hstep; exact start_layer_click_handler_timer_value s
    · rename_i hl
      cases hr : is_camera_state_ready s with
      | none => simp [hr] at hstep
      | some r =>
        cases r
        · simp [hr] at hstep; subst hstep; rfl
        · exfalso
          simp [is_camera_state_ready] at hr
          simp [showing_start_layer] at hl
          cases hcl : s.s_current_text_layer
          · exact hl hcl
          · simp [adjusting, hr, hcl] at hq
  | select_click => exact select_click_handler_timer_value s s1 hstep
  | picture_taken => exact on_picture_taken_timer_value s s1 hstep
  | message_timeout =>
    simp [step, message_timeout_handler, alert_window_push, emit] at hstep
    subst hstep; rfl
  | app_timer h => exact fire_app_timer_timer_value h s s1 hstep

theorem run_timer_value (es : List Event) (s s1 : State) (hrun : run es s = some s1)
    (hq : no_adjustment es s = true) : s1.s_timer_value = s.s_timer_value := by
  induction es generalizing s with
  | nil => simp [run] at hrun; subst hrun; rfl
  | cons e es ih =>
    simp only [run] at hrun
    cases hs : step e s with
    | none => simp [hs] at hrun
    | some s2 =>
      simp [hs] at hrun
      simp [no_adjustment, hs] at hq
      rw [ih s2 hrun hq.2]
      exact step_timer_value e s s2 hs hq.1

/-- C10: an event that is not an up or down press handled on the main screen
in the Ready state leaves the timer value as it was, in every state in which
it is handled; over a whole run without such a press the timer value is
unchanged, and the text that `set_camera_state_layer_ready` then puts on the
main layer is the text of the value the run started with. -/
theorem timer_value_changed_only_by_ready_press (es : List Event) (s s1 : State)
    (hrun : run es s = some s1) (hq : no_adjustment es s = true) :
    s1.s_timer_value = s.s_timer_value ∧
      (set_camera_state_layer_ready s1).main_text = intToStrPointer s.s_timer_value ∧
      (∀ (e : Event) (t t1 : State), step e t = some t1 → adjusting e t = false →
        t1.s_timer_value = t.s_timer_value) := by
  have hv := run_timer_value es s s1 hrun hq
  refine ⟨hv, ?_, step_timer_value⟩
  simp [set_camera_state_layer_ready, set_s_camera_state, layer_set_hidden,
    text_layer_set_text, emit, hv]

theorem timer_value_changed_only_by_ready_press_witness :
    ready_two.s_timer_value = 2 ∧ no_adjustment capture_events ready_two = true ∧
      (after capture_events ready_two).s_timer_value = 2 ∧
      (after capture_events ready_two).s_camera_state = some CameraState.cancelled :=
  ⟨by decide, by decide,
    (by decide : ready_two.s_timer_value = 2) ▸
      (timer_value_changed_only_by_ready_press capture_events ready_two
        (after capture_events ready_two) (by decide) (by decide)).1,
    by decide⟩

/-! ## Picture-taken guard (C7) -/

/-- With an initialised camera state other than in progress, the picture-taken
callback returns with the state exactly as it was. -/
theorem on_picture_taken_dropped (s : State) (c : CameraState)
    (hc : s.s_camera_state = some c) (hne : c ≠ CameraState.in_progress) :
    on_picture_taken s = some s := by
  cases c <;> simp_all [on_picture_taken, is_camera_state_in_progress]

/-- C7, at the idle state: before the start screen is confirmed
`s_camera_state` is still `NULL`, the `strcmp` of `is_camera_state_in_progress`
has no defined result, and the picture-taken callback does not return a state;
in the Ready state reached by confirming the start screen the notification is
dropped and the state is unchanged. -/
theorem picture_taken_in_idle_undefined :
    initial_state.s_camera_state = none ∧
      is_camera_state_in_progress initial_state = none ∧
      on_picture_taken initial_state = none ∧
      step Event.picture_taken initial_state = none ∧
      on_picture_taken (start_layer_click_handler initial_state) =
        some (start_layer_click_handler initial_state) := by
  decide

/-! ## Message timeout (C8) -/

/-- C8: in every state the message-timeout handler records exactly one call of
the alert surface and changes nothing else: camera state, timer value,
countdown counter, pending timers, timer handle and display are as before; in
the Ready state reached by confirming the start screen (which sent the status
check) the camera state is still Ready afterwards. -/
theorem message_timeout_alerts_once (s : State) :
    step Event.message_timeout s = some (message_timeout_handler s) ∧
      message_timeout_handler s = { s with trace := s.trace ++ [Effect.alert_window_push] } ∧
      (message_timeout_handler s).trace.count Effect.alert_window_push =
        s.trace.count Effect.alert_window_push + 1 ∧
      (message_timeout_handler (start_layer_click_handler initial_state)).s_camera_state =
        some CameraState.ready := by
  refine ⟨rfl, rfl, ?_, by decide⟩
  simp [message_timeout_handler, alert_window_push, emit]

/-! ## Cancelling (C9) -/

/-- C9, as stated, fails in its last clause: with timer value 0 the capture is
in progress with the counter at 0 and the tick with handle 1 pending; select
is pressed, the next tick runs, takes the zero branch before it looks at the
camera state and only arms the fallback timer, and the fallback sets Ready:
the Cancelled state is never observed and "Timer cancelled." never shown. -/
theorem cancel_at_zero_not_observed :
    Reachable zero_counting ∧
      zero_counting.s_current_text_layer = CurrentTextLayer.main ∧
      zero_counting.s_camera_state = some CameraState.in_progress ∧
      zero_counting.timers = [AppTimer.mk 1 1000 Callback.camera_countdown_loop] ∧
      ∃ s1 s2 s3, select_click_handler zero_counting = some s1 ∧
        s1.s_camera_state = some CameraState.cancelled ∧
        step (Event.app_timer 1) s1 = some s2 ∧
        s2.countdown_text = "Taking picture in..." ∧
        s2.trace = s1.trace ++
          [Effect.app_timer_register 2 5000 Callback.set_camera_state_layer_ready] ∧
        step (Event.app_timer 2) s2 = some s3 ∧
        s3.s_camera_state = some CameraState.ready ∧ s3.timers = [] ∧
        cancel_text ∉ s3.trace := by
  refine ⟨⟨[Event.select_click, Event.select_click], by decide⟩, by decide, by decide,
    by decide, _, _, _, rfl, by decide, rfl, by decide, by decide, rfl, by decide, by decide,
    by decide⟩

/-- C9, amended: select pressed on the main screen while the capture is in
progress changes the camera state to Cancelled and sends `KEY_CAPTURE` with
the current timer value, and nothing else: counter, pending timers, timer
handle, texts and visibility are untouched.  The message is the one select
sends from a Ready state with the same timer value.  In the resulting state
presses and picture-taken notifications change nothing.  When a pending tick
then fires, it observes the Cancelled state and shows "Timer cancelled." if
the counter is still positive; with the counter at 0 it leaves texts and
camera state as they are and only arms the fallback timer. -/
theorem select_in_progress_marks_cancelled (s : State)
    (hl : s.s_current_text_layer = CurrentTextLayer.main)
    (hc : s.s_camera_state = some CameraState.in_progress) :
    ∃ s1, select_click_handler s = some s1 ∧
      s1 = { s with
        s_camera_state := some CameraState.cancelled
        trace := s.trace ++ [Effect.camera_state CameraState.cancelled,
          Effect.send_int_app_message MessageKey.KEY_CAPTURE s.s_timer_value] } ∧
      (∀ s0 : State, ReadyOnMain s0 → s0.s_timer_value = s.s_timer_value →
        ∃ s2, select_click_handler s0 = some s2 ∧
          s2.trace.getLast? =
            some (Effect.send_int_app_message MessageKey.KEY_CAPTURE s.s_timer_value)) ∧
      (∀ e : Event, e = Event.up_click ∨ e = Event.down_click ∨ e = Event.select_click ∨
        e = Event.picture_taken → step e s1 = some s1) ∧
      (∀ (h : Nat) (t : AppTimer), s.timers.find? (fun x => x.handle == h) = some t →
        t.callback = Callback.camera_countdown_loop →
        ∃ s3, step (Event.app_timer h) s1 = some s3 ∧
          s3.s_camera_state = some CameraState.cancelled ∧
          s3.s_timer_countdown_value = s.s_timer_countdown_value ∧
          s3.main_text = s.main_text ∧
          (0 < s.s_timer_countdown_value →
            s3.countdown_text = "Timer cancelled." ∧
            s3.trace = s1.trace ++
              [Effect.text_layer_set_text TextLayer.s_countdown_layer "Timer cancelled.",
               Effect.app_timer_register s.next_handle 2000
                 Callback.set_camera_state_layer_ready]) ∧
          (s.s_timer_countdown_value ≤ 0 →
            s3.countdown_text = s.countdown_text ∧
            s3.trace = s1.trace ++
              [Effect.app_timer_register s.next_handle 5000
                 Callback.set_camera_state_layer_ready])) := by
  have hsel : select_click_handler s = some { s with
      s_camera_state := some CameraState.cancelled
      trace := s.trace ++ [Effect.camera_state CameraState.cancelled,
        Effect.send_int_app_message MessageKey.KEY_CAPTURE s.s_timer_value] } := by
    simp [select_click_handler, showing_start_layer, is_camera_state_ready,
      is_camera_state_in_progress, hl, hc, set_s_camera_state,
      send_int_app_message_with_callback, emit]
  refine ⟨_, hsel, rfl, ?_, ?_, ?_⟩
  · intro s0 h0 hv
    obtain ⟨hl0, hc0⟩ := h0
    rw [← hv]
    unfold select_click_handler start_camera_countdown camera_countdown_loop
    by_cases hz : s0.s_timer_value + 1 ≤ 0 <;>
      simp [showing_start_layer, is_camera_state_ready, is_camera_state_cancelled, hl0, hc0,
        set_camera_state_layer_in_progress, set_s_camera_state, layer_set_hidden,
        text_layer_set_text, app_timer_register, send_int_app_message_with_callback, emit,
        hz]
  · intro e he
    rcases he with rfl | rfl | rfl | rfl <;>
      simp [step, up_click_handler, down_click_handler, select_click_handler, on_picture_taken,
        showing_start_layer, is_camera_state_ready, is_camera_state_in_progress, hl]
  · intro h t hf hcb
    by_cases hz : s.s_timer_countdown_value ≤ 0
    · have hnp : ¬ 0 < s.s_timer_countdown_value := by omega
      simp [step, fire_app_timer, hf, hcb, run_callback, camera_countdown_loop, hz, hnp,
        app_timer_register, emit]
    · have hpos : 0 < s.s_timer_countdown_value := by omega
      simp [step, fire_app_timer, hf, hcb, run_callback, camera_countdown_loop, hz, hpos,
        is_camera_state_cancelled, text_layer_set_text, app_timer_register, emit]

theorem select_in_progress_marks_cancelled_witness :
    counting_two.s_current_text_layer = CurrentTextLayer.main ∧
      counting_two.s_camera_state = some CameraState.in_progress ∧
      counting_two.s_timer_countdown_value = 2 ∧
      ∃ s1 s3, select_click_handler counting_two = some s1 ∧
        s1.s_camera_state = some CameraState.cancelled ∧
        s1.s_timer_countdown_value = 2 ∧ s1.timers = counting_two.timers ∧
        s1.countdown_text = "Taking picture in..." ∧
        step (Event.app_timer 1) s1 = some s3 ∧ s3.countdown_text = "Timer cancelled." := by
  obtain ⟨s1, h1, h2, _, _, htick⟩ :=
    select_in_progress_marks_cancelled counting_two (by decide) (by decide)
  obtain ⟨s3, h3, _, _, _, hpos, _⟩ :=
    htick 1 (AppTimer.mk 1 1000 Callback.camera_countdown_loop) (by decide) rfl
  refine ⟨by decide, by decide, by decide, s1, s3, h1, ?_, ?_, ?_, ?_, h3,
    (hpos (by decide)).1⟩ <;> rw [h2] <;> decide

/-! ## The countdown of a capture started with no timer pending -/

theorem intToStrPointer_eq_toString (k : Nat) (hk : k ≤ 31) :
    intToStrPointer (k : Int) = toString k := by
  interval_cases k <;> rfl

theorem main_texts_append (a b : List Effect) :
    main_texts (a ++ b) = main_texts a ++ main_texts b := by
  induction a with
  | nil => rfl
  | cons e a ih =>
    cases e with
    | text_layer_set_text l t => cases l <;> simp [main_texts, ih]
    | _ => simp [main_texts, ih]

theorem tick_step (s : State) (k h : Nat) (hc : Counting s (k + 1) h) :
    ∃ s1, fire_next s = some s1 ∧ Counting s1 k (h + 1) ∧
      s1.trace = s.trace ++ tick_effects h (k + 1) 1 ∧
      s1.s_camera_state = s.s_camera_state ∧ s1.s_timer_value = s.s_timer_value ∧
      s1.s_current_text_layer = s.s_current_text_layer := by
  obtain ⟨hk, ht, hn, c, hcs, hcc⟩ := hc
  have hpos : ¬ ((k : Int) + 1 ≤ 0) := by omega
  have hcan : (c == CameraState.cancelled) = false := by cases c <;> simp_all
  simp [fire_next, ht, step, fire_app_timer, run_callback, camera_countdown_loop, hk, hpos,
    is_camera_state_cancelled, hcs, hcan, Counting, text_layer_set_text, app_timer_register,
    emit, hn, hcc, tick_effects]

theorem ticks_run (j : Nat) (s : State) (k h : Nat) (hc : Counting s k h) (hj : j ≤ k) :
    ∃ s1, fire_all j s = some s1 ∧ Counting s1 (k - j) (h + j) ∧
      s1.trace = s.trace ++ tick_effects h k j ∧
      s1.s_camera_state = s.s_camera_state ∧ s1.s_timer_value = s.s_timer_value ∧
      s1.s_current_text_layer = s.s_current_text_layer := by
  induction j generalizing s k h with
  | zero => exact ⟨s, rfl, by simpa using hc, by simp [tick_effects], rfl, rfl, rfl⟩
  | succ j ih =>
    obtain ⟨k, rfl⟩ : ∃ k1, k = k1 + 1 := ⟨k - 1, by omega⟩
    obtain ⟨s1, hf, hc1, htr, hcs, htv, hl⟩ := tick_step s k h hc
    obtain ⟨s2, hf2, hc2, htr2, hcs2, htv2, hl2⟩ := ih s1 k (h + 1) hc1 (by omega)
    refine ⟨s2, ?_, ?_, ?_, hcs2.trans hcs, htv2.trans htv, hl2.trans hl⟩
    · simp [fire_all, hf, hf2]
    · have e1 : k + 1 - (j + 1) = k - j := by omega
      have e2 : h + (j + 1) = h + 1 + j := by omega
      rw [e1, e2]; exact hc2
    · rw [htr2, htr]
      simp [tick_effects]

theorem main_texts_tick_effects (j h k : Nat) :
    main_texts (tick_effects h k j) =
      (countdown_from (k - 1) j).map (fun v : Nat => intToStrPointer (v : Int)) := by
  induction j generalizing h k with
  | zero => rfl
  | succ j ih => simp [tick_effects, main_texts, countdown_from, ih]

theorem zero_tick (s : State) (h : Nat) (hc : Counting s 0 h) :
    fire_next s = some { s with
      timers := [AppTimer.mk (h + 1) 5000 Callback.set_camera_state_layer_ready]
      next_handle := h + 2
      countdown_timer := some (h + 1)
      trace := s.trace ++
        [Effect.app_timer_register (h + 1) 5000 Callback.set_camera_state_layer_ready] } := by
  obtain ⟨hk, ht, hn, c, hcs, hcc⟩ := hc
  simp [fire_next, ht, step, fire_app_timer, run_callback, camera_countdown_loop, hk,
    app_timer_register, emit, hn]

theorem ready_timer_fires (s : State) (h ms : Nat)
    (ht : s.timers = [AppTimer.mk h ms Callback.set_camera_state_layer_ready]) :
    fire_next s = some { s with
      timers := []
      s_camera_state := some CameraState.ready
      main_text := intToStrPointer s.s_timer_value
      countdown_hidden := true
      canvas_hidden := false
      trace := s.trace ++ ready_effects s.s_timer_value } := by
  simp [fire_next, ht, step, fire_app_timer, run_callback, set_camera_state_layer_ready,
    set_s_camera_state, text_layer_set_text, layer_set_hidden, emit, ready_effects]

theorem select_starts_countdown (s : State) (n : Nat) (hr : ReadyOnMain s)
    (hn : s.s_timer_value = (n : Int)) (ht : s.timers = []) :
    ∃ s0, select_click_handler s = some s0 ∧ Counting s0 n s.next_handle ∧
      s0.trace = s.trace ++ start_effects s.next_handle n ∧
      s0.s_camera_state = some CameraState.in_progress ∧
      s0.s_timer_value = s.s_timer_value ∧
      s0.s_current_text_layer = s.s_current_text_layer := by
  obtain ⟨hl, hc⟩ := hr
  have hpos : ¬ ((n : Int) + 1 ≤ 0) := by omega
  simp [select_click_handler, showing_start_layer, is_camera_state_ready, hl, hc,
    start_camera_countdown, camera_countdown_loop, hn, hpos, is_camera_state_cancelled,
    set_camera_state_layer_in_progress, set_s_camera_state, layer_set_hidden,
    text_layer_set_text, app_timer_register, send_int_app_message_with_callback, emit,
    Counting, ht, start_effects]

theorem countdown_from_le (j n v : Nat) (hv : v ∈ countdown_from n j) : v ≤ n := by
  induction j generalizing n with
  | zero => simp [countdown_from] at hv
  | succ j ih =>
    simp [countdown_from] at hv
    rcases hv with rfl | hv
    · exact le_rfl
    · exact le_trans (ih (n - 1) hv) (Nat.sub_le n 1)

theorem countdown_texts (j n : Nat) (hn : n ≤ 31) :
    (countdown_from n j).map (fun v : Nat => intToStrPointer (v : Int)) =
      (countdown_from n j).map (fun v : Nat => toString v) := by
  apply List.map_congr_left
  intro v hv
  exact intToStrPointer_eq_toString v (le_trans (countdown_from_le j n v hv) hn)

theorem ready_count_tick_effects (j h k : Nat) : ready_count (tick_effects h k j) = 0 := by
  induction j generalizing h k with
  | zero => rfl
  | succ j ih =>
    have := ih (h + 1) (k - 1)
    simp only [ready_count] at this ⊢
    simp [tick_effects, this]

theorem fallback_count_tick_effects (j h k : Nat) : fallback_count (tick_effects h k j) = 0 := by
  induction j generalizing h k with
  | zero => rfl
  | succ j ih =>
    have := ih (h + 1) (k - 1)
    simp only [fallback_count] at this ⊢
    simp [tick_effects, this]

/-- The countdown of a capture started with no timer pending: select pressed
in the Ready state with timer value N in [0,30] seeds the counter with N + 1,
and the run of the countdown loop inside the same press brings it to N.  With
only timers firing afterwards, after k ticks (k ≤ N) the counter is N - k and
the texts put on the main layer since the press are the decimals of N, N - 1,
..., N - k; after N ticks that is N, N - 1, ..., 0.  The tick after that
leaves counter and main text as they are and only registers the 5000 ms timer
of `set_camera_state_layer_ready`. -/
theorem countdown_displays_sequence (s : State) (n : Nat) (hr : ReadyOnMain s)
    (hn : s.s_timer_value = (n : Int)) (h30 : n ≤ 30) (ht : s.timers = []) :
    (∃ seeded : State, seeded.s_timer_countdown_value = (n : Int) + 1 ∧
      start_camera_countdown s = camera_countdown_loop seeded) ∧
    ∃ s0, select_click_handler s = some s0 ∧ s0.s_timer_countdown_value = (n : Int) ∧
      (∀ k, k ≤ n → ∃ sk tr, fire_all k s0 = some sk ∧
        sk.s_timer_countdown_value = ((n - k : Nat) : Int) ∧
        sk.trace = s.trace ++ tr ∧
        main_texts tr = (countdown_from n (k + 1)).map (fun v : Nat => toString v)) ∧
      ∃ sn sz, fire_all n s0 = some sn ∧ sn.s_timer_countdown_value = 0 ∧
        fire_next sn = some sz ∧ sz.s_timer_countdown_value = 0 ∧
        sz.main_text = sn.main_text ∧
        sz.trace = sn.trace ++ [Effect.app_timer_register (s.next_handle + n + 1) 5000
          Callback.set_camera_state_layer_ready] ∧
        sz.timers = [AppTimer.mk (s.next_handle + n + 1) 5000
          Callback.set_camera_state_layer_ready] := by
  constructor
  · refine ⟨set_camera_state_layer_in_progress
      (text_layer_set_text TextLayer.s_countdown_layer "Taking picture in..."
        { s with s_timer_countdown_value := s.s_timer_value + 1 }), ?_, rfl⟩
    simp [set_camera_state_layer_in_progress, set_s_camera_state, layer_set_hidden,
      text_layer_set_text, emit, hn]
  · obtain ⟨s0, hsel, hc0, htr0, _, _, _⟩ := select_starts_countdown s n hr hn ht
    refine ⟨s0, hsel, hc0.1, ?_, ?_⟩
    · intro k hk
      obtain ⟨sk, hf, hck, htr, _, _, _⟩ := ticks_run k s0 n s.next_handle hc0 hk
      refine ⟨sk, start_effects s.next_handle n ++ tick_effects s.next_handle n k, hf,
        hck.1, ?_, ?_⟩
      · rw [htr, htr0, List.append_assoc]
      · rw [main_texts_append, main_texts_tick_effects, ← countdown_texts (k + 1) n (by omega)]
        simp [start_effects, main_texts, countdown_from]
    · obtain ⟨sn, hf, hcn, _, _, _, _⟩ := ticks_run n s0 n s.next_handle hc0 le_rfl
      rw [Nat.sub_self] at hcn
      refine ⟨sn, _, hf, by simpa using hcn.1, zero_tick sn _ hcn, ?_, rfl, rfl, rfl⟩
      simpa using hcn.1

theorem countdown_displays_sequence_witness :
    ReadyOnMain ready_three ∧ ready_three.s_timer_value = 3 ∧ ready_three.timers = [] ∧
      ∃ s0 s3, select_click_handler ready_three = some s0 ∧ fire_all 3 s0 = some s3 ∧
        main_texts (s3.trace.drop ready_three.trace.length) = ["3", "2", "1", "0"] := by
  have hr : ReadyOnMain ready_three := ⟨by decide, by decide⟩
  obtain ⟨_, s0, hsel, _, hk, _⟩ :=
    countdown_displays_sequence ready_three 3 hr (by decide) (by decide) (by decide)
  obtain ⟨s3, tr, hf, _, htr, hm⟩ := hk 3 (by decide)
  refine ⟨hr, by decide, by decide, s0, s3, hsel, hf, ?_⟩
  rw [htr, List.drop_left, hm]
  decide

theorem fire_all_succ_right (n : Nat) (s : State) :
    fire_all (n + 1) s = (fire_all n s).bind fire_next := by
  induction n generalizing s with
  | zero => simp [fire_all]
  | succ n ih =>
    rw [fire_all]
    cases hf : fire_next s with
    | none => simp [fire_all, hf]
    | some s1 =>
      simp only [Option.some_bind]
      rw [ih s1]
      conv_rhs => rw [fire_all]
      simp [hf]

theorem fire_all_no_timers (m : Nat) (s : State) (ht : s.timers = []) :
    fire_all m s = some s := by
  induction m with
  | zero => rfl
  | succ m ih => simp [fire_all, fire_next, ht, ih]

/-- The fallback of a capture started with no timer pending: select pressed
in the Ready state with timer value N (any N from 0 on, so every N in [0,30]),
followed only by timer firings: after N + 1 firings the counter is 0, the
camera state is still in progress, the state was never set to Ready and the
only pending timer is the fallback, armed once; when it fires the camera state
is Ready, it was set to Ready exactly once since the press, the fallback was
armed exactly once, and no timer is pending, so that no further firing changes
anything.  The state reached is again Ready on the main screen with the same
timer value and no timer pending. -/
theorem fallback_returns_ready_once (s : State) (n : Nat) (hr : ReadyOnMain s)
    (hn : s.s_timer_value = (n : Int)) (ht : s.timers = []) :
    ∃ s0 s1 s2 tr1 tr2, select_click_handler s = some s0 ∧
      fire_all (n + 1) s0 = some s1 ∧
      s1.s_timer_countdown_value = 0 ∧
      s1.s_camera_state = some CameraState.in_progress ∧
      s1.timers = [AppTimer.mk (s.next_handle + n + 1) 5000
        Callback.set_camera_state_layer_ready] ∧
      s1.trace = s.trace ++ tr1 ∧ ready_count tr1 = 0 ∧ fallback_count tr1 = 1 ∧
      fire_next s1 = some s2 ∧
      s2.s_camera_state = some CameraState.ready ∧
      s2.timers = [] ∧
      s2.trace = s.trace ++ tr2 ∧ ready_count tr2 = 1 ∧ fallback_count tr2 = 1 ∧
      (∀ m, fire_all m s2 = some s2) ∧
      ReadyOnMain s2 ∧ s2.s_timer_value = s.s_timer_value := by
  obtain ⟨s0, hsel, hc0, htr0, hcs0, htv0, hl0⟩ := select_starts_countdown s n hr hn ht
  obtain ⟨sn, hf, hcn, htrn, hcsn, htvn, hln⟩ := ticks_run n s0 n s.next_handle hc0 le_rfl
  rw [Nat.sub_self] at hcn
  have hz := zero_tick sn _ hcn
  have hrf := ready_timer_fires { sn with
      timers := [AppTimer.mk (s.next_handle + n + 1) 5000 Callback.set_camera_state_layer_ready]
      next_handle := s.next_handle + n + 2
      countdown_timer := some (s.next_handle + n + 1)
      trace := sn.trace ++ [Effect.app_timer_register (s.next_handle + n + 1) 5000
        Callback.set_camera_state_layer_ready] } (s.next_handle + n + 1) 5000 rfl
  have hrc0 : ready_count (start_effects s.next_handle n) = 0 := by
    simp [ready_count, start_effects]
  have hfc0 : fallback_count (start_effects s.next_handle n) = 0 := by
    simp [fallback_count, start_effects]
  have hrct := ready_count_tick_effects n s.next_handle n
  have hfct := fallback_count_tick_effects n s.next_handle n
  simp only [ready_count, fallback_count] at hrc0 hfc0 hrct hfct
  refine ⟨s0, _, _,
    start_effects s.next_handle n ++ tick_effects s.next_handle n n ++
      [Effect.app_timer_register (s.next_handle + n + 1) 5000
        Callback.set_camera_state_layer_ready],
    start_effects s.next_handle n ++ tick_effects s.next_handle n n ++
      [Effect.app_timer_register (s.next_handle + n + 1) 5000
        Callback.set_camera_state_layer_ready] ++ ready_effects sn.s_timer_value,
    hsel, ?_, ?_, ?_, rfl, ?_, ?_, ?_, hrf, rfl, rfl, ?_, ?_, ?_, ?_,
    ⟨(hln.trans hl0).trans hr.1, rfl⟩, htvn.trans htv0⟩
  · rw [fire_all_succ_right, hf]
    exact hz
  · simpa using hcn.1
  · exact hcsn.trans hcs0
  · simp [htrn, htr0]
  · simp [ready_count, hrc0, hrct]
  · simp [fallback_count, hfc0, hfct]
  · simp [htrn, htr0]
  · simp [ready_count, hrc0, hrct, ready_effects]
  · simp [fallback_count, hfc0, hfct, ready_effects]
  · intro m
    exact fire_all_no_timers m _ rfl

theorem fallback_returns_ready_once_witness :
    ReadyOnMain ready_two ∧ ready_two.s_timer_value = 2 ∧ ready_two.timers = [] ∧
      ∃ s0 s1 s2, select_click_handler ready_two = some s0 ∧ fire_all 3 s0 = some s1 ∧
        fire_next s1 = some s2 ∧ s2.s_camera_state = some CameraState.ready ∧
        s2.timers = [] ∧ ready_count (s2.trace.drop ready_two.trace.length) = 1 := by
  have hr : ReadyOnMain ready_two := ⟨by decide, by decide⟩
  obtain ⟨s0, s1, s2, tr1, tr2, hsel, hf, _, _, _, _, _, _, hn, hc, ht, htr, hrc, _⟩ :=
    fallback_returns_ready_once ready_two 2 hr (by decide) (by decide)
  refine ⟨hr, by decide, by decide, s0, s1, s2, hsel, hf, hn, hc, ht, ?_⟩
  rw [htr, List.drop_left, hrc]

/-! ## What every handler preserves -/

theorem camera_countdown_loop_extends (s : State) (hc : s.s_camera_state ≠ none)
    (s0 : State) (h0 : ∀ t ∈ s.timers, t ∈ s0.timers ∨ s0.next_handle ≤ t.handle)
    (hn : s0.next_handle ≤ s.next_handle) (htr : ∃ tr, s.trace = s0.trace ++ tr) :
    ∃ s1, camera_countdown_loop s = some s1 ∧ Extends s0 s1 := by
  obtain ⟨c, hcs⟩ := Option.ne_none_iff_exists'.mp hc
  obtain ⟨tr, htr⟩ := htr
  unfold camera_countdown_loop Extends
  by_cases hz : s.s_timer_countdown_value ≤ 0
  · simp [hz, app_timer_register, emit, hcs, htr]
    refine ⟨by omega, ?_⟩
    intro t ht
    rcases ht with ht | rfl
    · exact h0 t ht
    · exact Or.inr hn
  · cases c <;>
      simp [hz, is_camera_state_cancelled, hcs, app_timer_register, text_layer_set_text, emit,
        htr] <;>
      refine ⟨by omega, ?_⟩ <;>
      intro t ht <;>
      rcases ht with ht | rfl <;>
      first
        | exact h0 t ht
        | exact Or.inr hn

theorem extends_refl (s : State) (hc : s.s_camera_state ≠ none) : Extends s s :=
  ⟨hc, ⟨[], by simp⟩, le_rfl, fun _ ht => Or.inl ht⟩

theorem extends_trans (s s1 s2 : State) (h1 : Extends s s1) (h2 : Extends s1 s2) :
    Extends s s2 := by
  obtain ⟨_, ⟨tr1, ht1⟩, hn1, hm1⟩ := h1
  obtain ⟨hc2, ⟨tr2, ht2⟩, hn2, hm2⟩ := h2
  refine ⟨hc2, ⟨tr1 ++ tr2, by rw [ht2, ht1, List.append_assoc]⟩, le_trans hn1 hn2, ?_⟩
  intro t ht
  rcases hm2 t ht with h | h
  · exact hm1 t h
  · exact Or.inr (le_trans hn1 h)

theorem start_layer_click_handler_extends (s : State) :
    Extends s (start_layer_click_handler s) := by
  unfold start_layer_click_handler ensure_main_text_layer_showing Extends
  split <;>
    simp [send_int_app_message_with_callback, set_s_camera_state, layer_set_hidden, emit] <;>
    exact fun t ht => Or.inl ht

theorem set_camera_state_layer_ready_extends (s : State) :
    Extends s (set_camera_state_layer_ready s) := by
  simp [Extends, set_camera_state_layer_ready, set_s_camera_state, layer_set_hidden,
    text_layer_set_text, emit]
  exact fun t ht => Or.inl ht

theorem on_picture_taken_extends (s : State) (hc : s.s_camera_state ≠ none) :
    ∃ s1, on_picture_taken s = some s1 ∧ Extends s s1 := by
  obtain ⟨c, hcs⟩ := Option.ne_none_iff_exists'.mp hc
  unfold on_picture_taken Extends
  cases c with
  | ready => simp [is_camera_state_in_progress, hcs]; exact fun t ht => Or.inl ht
  | cancelled => simp [is_camera_state_in_progress, hcs]; exact fun t ht => Or.inl ht
  | in_progress =>
    cases hct : s.countdown_timer <;>
      by_cases hz : 0 < s.s_timer_countdown_value <;>
      simp [is_camera_state_in_progress, hcs, hz, app_timer_register, vibes_double_pulse,
        text_layer_set_text, app_timer_cancel, emit] <;>
      intro t ht <;>
      rcases ht with ht | rfl <;>
      first
        | exact Or.inl ht
        | exact Or.inl ht.1
        | exact Or.inr le_rfl

theorem start_camera_countdown_extends (s : State) :
    ∃ s1, start_camera_countdown s = some s1 ∧ Extends s s1 := by
  unfold start_camera_countdown
  apply camera_countdown_loop_extends
  · simp [set_camera_state_layer_in_progress, set_s_camera_state, layer_set_hidden,
      text_layer_set_text, emit]
  · simp [set_camera_state_layer_in_progress, set_s_camera_state, layer_set_hidden,
      text_layer_set_text, emit]
    exact fun t ht => Or.inl ht
  · simp [set_camera_state_layer_in_progress, set_s_camera_state, layer_set_hidden,
      text_layer_set_text, emit]
  · simp [set_camera_state_layer_in_progress, set_s_camera_state, layer_set_hidden,
      text_layer_set_text, emit]

theorem select_click_handler_extends (s : State) (hc : s.s_camera_state ≠ none) :
    ∃ s1, select_click_handler s = some s1 ∧ Extends s s1 := by
  obtain ⟨c, hcs⟩ := Option.ne_none_iff_exists'.mp hc
  unfold select_click_handler
  split
  · exact ⟨_, rfl, start_layer_click_handler_extends s⟩
  · cases c
    · obtain ⟨s1, h1, a, ⟨tr, b⟩, c, d⟩ := start_camera_countdown_extends s
      refine ⟨send_int_app_message_with_callback MessageKey.KEY_CAPTURE s1.s_timer_value s1,
        by simp [is_camera_state_ready, hcs, h1], ?_⟩
      exact ⟨by simpa [send_int_app_message_with_callback, emit] using a,
        ⟨tr ++ [Effect.send_int_app_message MessageKey.KEY_CAPTURE s1.s_timer_value], by
          simp [send_int_app_message_with_callback, emit, b]⟩,
        by simpa [send_int_app_message_with_callback, emit] using c,
        by simpa [send_int_app_message_with_callback, emit] using d⟩
    · simp [is_camera_state_ready, is_camera_state_in_progress, hcs, Extends,
        send_int_app_message_with_callback, set_s_camera_state, emit]
      exact fun t ht => Or.inl ht
    · simp [is_camera_state_ready, is_camera_state_in_progress, hcs, Extends]
      exact fun t ht => Or.inl ht

theorem up_click_handler_extends (s : State) (hc : s.s_camera_state ≠ none) :
    ∃ s1, up_click_handler s = some s1 ∧ Extends s s1 := by
  obtain ⟨c, hcs⟩ := Option.ne_none_iff_exists'.mp hc
  unfold up_click_handler
  split
  · exact ⟨_, rfl, start_layer_click_handler_extends s⟩
  · cases c <;> simp [is_camera_state_ready, hcs, Extends, increment_camera_timer]
    · split <;> simp [text_layer_set_text, emit, hcs] <;> exact fun t ht => Or.inl ht
    · exact fun t ht => Or.inl ht
    · exact fun t ht => Or.inl ht

theorem down_click_handler_extends (s : State) (hc : s.s_camera_state ≠ none) :
    ∃ s1, down_click_handler s = some s1 ∧ Extends s s1 := by
  obtain ⟨c, hcs⟩ := Option.ne_none_iff_exists'.mp hc
  unfold down_click_handler
  split
  · exact ⟨_, rfl, start_layer_click_handler_extends s⟩
  · cases c <;> simp [is_camera_state_ready, hcs, Extends, decrement_camera_timer]
    · split <;> simp [text_layer_set_text, emit, hcs] <;> exact fun t ht => Or.inl ht
    · exact fun t ht => Or.inl ht
    · exact fun t ht => Or.inl ht

theorem fire_app_timer_extends (h : Nat) (s : State) (hc : s.s_camera_state ≠ none) :
    ∃ s1, fire_app_timer h s = some s1 ∧ Extends s s1 := by
  unfold fire_app_timer
  split
  · exact ⟨s, rfl, extends_refl s hc⟩
  · rename_i t _
    have hsub : Extends s { s with timers := s.timers.filter (fun t => t.handle != h) } :=
      ⟨hc, ⟨[], by simp⟩, le_rfl, fun t ht => Or.inl (List.mem_of_mem_filter ht)⟩
    cases hcb : t.callback
    · simp only [run_callback]
      exact camera_countdown_loop_extends
        { s with timers := s.timers.filter (fun t => t.handle != h) } hc s hsub.2.2.2 le_rfl
        ⟨[], by simp⟩
    · simp only [run_callback]
      exact ⟨_, rfl, extends_trans _ _ _ hsub (set_camera_state_layer_ready_extends _)⟩

theorem step_extends (e : Event) (s : State) (hc : s.s_camera_state ≠ none) :
    ∃ s1, step e s = some s1 ∧ Extends s s1 := by
  cases e with
  | up_click => exact up_click_handler_extends s hc
  | select_click => exact select_click_handler_extends s hc
  | down_click => exact down_click_handler_extends s hc
  | picture_taken => exact on_picture_taken_extends s hc
  | message_timeout =>
    refine ⟨_, rfl, ?_⟩
    simp [Extends, message_timeout_handler, alert_window_push, emit, hc]
    exact fun t ht => Or.inl ht
  | app_timer h => exact fire_app_timer_extends h s hc

theorem run_extends (es : List Event) (s : State) (hc : s.s_camera_state ≠ none) :
    ∃ s1, run es s = some s1 ∧ Extends s s1 := by
  induction es generalizing s with
  | nil => exact ⟨s, rfl, extends_refl s hc⟩
  | cons e es ih =>
    obtain ⟨s1, h1, he1⟩ := step_extends e s hc
    obtain ⟨s2, h2, he2⟩ := ih s1 he1.1
    exact ⟨s2, by simp [run, h1, h2], extends_trans _ _ _ he1 he2⟩

theorem cancelled_before_ready_quiet (a b : List Effect) (ha : Quiet a) :
    cancelled_before_ready (a ++ b) = cancelled_before_ready b := by
  induction a with
  | nil => rfl
  | cons e a ih =>
    have he := ha e (List.mem_cons_self e a)
    simp only [List.cons_append, cancelled_before_ready, he.1, he.2, if_false]
    exact ih (fun x hx => ha x (List.mem_cons_of_mem e hx))

theorem cancel_inv_holds (base : List Effect) (s : State) (h : CancelInv base s) :
    ∃ tr, s.trace = base ++ tr ∧ cancelled_before_ready tr = true := by
  obtain ⟨_, ⟨_, _, _, _, tr, htr, hq⟩ | ⟨a, b, htr, hq⟩⟩ := h
  · refine ⟨tr, htr, ?_⟩
    have := cancelled_before_ready_quiet tr [] hq
    simpa [cancelled_before_ready] using this
  · refine ⟨_, htr, ?_⟩
    rw [cancelled_before_ready_quiet a _ hq]
    simp [cancelled_before_ready]

theorem cancel_inv_step (base : List Effect) (e : Event) (s : State)
    (h : CancelInv base s) : ∃ s1, step e s = some s1 ∧ CancelInv base s1 := by
  obtain ⟨hc, hA | ⟨a, b, htr, hq⟩⟩ := h
  · obtain ⟨hcs, hl, hpos, htk, tr, htr, hq⟩ := hA
    have hnz : ¬ s.s_timer_countdown_value ≤ 0 := by omega
    cases e with
    | up_click =>
      refine ⟨s, ?_, hc, Or.inl ⟨hcs, hl, hpos, htk, tr, htr, hq⟩⟩
      simp [step, up_click_handler, showing_start_layer, is_camera_state_ready, hl, hcs]
    | down_click =>
      refine ⟨s, ?_, hc, Or.inl ⟨hcs, hl, hpos, htk, tr, htr, hq⟩⟩
      simp [step, down_click_handler, showing_start_layer, is_camera_state_ready, hl, hcs]
    | select_click =>
      refine ⟨s, ?_, hc, Or.inl ⟨hcs, hl, hpos, htk, tr, htr, hq⟩⟩
      simp [step, select_click_handler, showing_start_layer, is_camera_state_ready,
        is_camera_state_in_progress, hl, hcs]
    | picture_taken =>
      refine ⟨s, ?_, hc, Or.inl ⟨hcs, hl, hpos, htk, tr, htr, hq⟩⟩
      simp [step, on_picture_taken, is_camera_state_in_progress, hcs]
    | message_timeout =>
      refine ⟨_, rfl, ?_, Or.inl ⟨?_, ?_, ?_, ?_, tr ++ [Effect.alert_window_push], ?_, ?_⟩⟩
      · simpa [message_timeout_handler, alert_window_push, emit] using hc
      · simpa [message_timeout_handler, alert_window_push, emit] using hcs
      · simpa [message_timeout_handler, alert_window_push, emit] using hl
      · simpa [message_timeout_handler, alert_window_push, emit] using hpos
      · simpa [message_timeout_handler, alert_window_push, emit] using htk
      · simp [message_timeout_handler, alert_window_push, emit, htr]
      · intro x hx
        rcases List.mem_append.mp hx with hx | hx
        · exact hq x hx
        · simp at hx; subst hx; simp [cancel_text]
    | app_timer h =>
      simp only [step, fire_app_timer]
      cases hf : s.timers.find? (fun t => t.handle == h) with
      | none => exact ⟨s, rfl, hc, Or.inl ⟨hcs, hl, hpos, htk, tr, htr, hq⟩⟩
      | some t =>
        have hcb := htk t (List.mem_of_find?_eq_some hf)
        refine ⟨_, by simp [hcb, run_callback, camera_countdown_loop, hnz,
          is_camera_state_cancelled, hcs]; rfl, ?_, Or.inr ⟨tr,
            [Effect.app_timer_register s.next_handle 2000
              Callback.set_camera_state_layer_ready], ?_, hq⟩⟩
        · simp [app_timer_register, text_layer_set_text, emit, hcs]
        · simp [app_timer_register, text_layer_set_text, emit, htr, cancel_text]
  · obtain ⟨s1, h1, hc1, ⟨tr, htr1⟩, _, _⟩ := step_extends e s hc
    refine ⟨s1, h1, hc1, Or.inr ⟨a, b ++ tr, ?_, hq⟩⟩
    rw [htr1, htr]
    simp

theorem cancel_inv_run (base : List Effect) (es : List Event) (s : State)
    (h : CancelInv base s) : ∃ s1, run es s = some s1 ∧ CancelInv base s1 := by
  induction es generalizing s with
  | nil => exact ⟨s, rfl, h⟩
  | cons e es ih =>
    obtain ⟨s1, h1, hi1⟩ := cancel_inv_step base e s h
    obtain ⟨s2, h2, hi2⟩ := ih s1 hi1
    exact ⟨s2, by simp [run, h1, h2], hi2⟩

/-! ## Cancelling a countdown (C4) -/

/-- C4, as stated, fails: with the counter at 0 and the last tick pending, or
with a picture-taken notification already received during the countdown, select
pressed in the in-progress state is followed by the camera state becoming
Ready without "Timer cancelled." ever having been shown. -/
theorem cancel_without_text :
    (Reachable zero_counting ∧
      zero_counting.s_camera_state = some CameraState.in_progress ∧
      zero_counting.s_timer_countdown_value = 0 ∧
      ∃ s1, run [Event.select_click, Event.app_timer 1, Event.app_timer 2] zero_counting =
          some s1 ∧
        s1.s_camera_state = some CameraState.ready ∧ cancel_text ∉ s1.trace ∧
        cancelled_before_ready (s1.trace.drop zero_counting.trace.length) = false) ∧
    (Reachable picture_pending ∧
      picture_pending.s_camera_state = some CameraState.in_progress ∧
      picture_pending.s_timer_countdown_value = 2 ∧
      ∃ s1, run [Event.select_click, Event.app_timer 2] picture_pending = some s1 ∧
        s1.s_camera_state = some CameraState.ready ∧ cancel_text ∉ s1.trace ∧
        cancelled_before_ready (s1.trace.drop picture_pending.trace.length) = false) := by
  refine ⟨⟨⟨[Event.select_click, Event.select_click], by decide⟩, by decide, by decide,
    _, rfl, by decide, by decide, by decide⟩,
    ⟨[Event.select_click, Event.up_click, Event.up_click, Event.select_click,
      Event.picture_taken], by decide⟩, by decide, by decide, _, rfl, by decide, by decide,
    by decide⟩

/-- C4, amended: in a state on the main screen with the capture in progress,
a positive counter and only countdown ticks pending, after select is pressed
every continuation is handled without failure and in none of them is the camera
state set to Ready before "Timer cancelled." has been shown; and the firing of
any pending tick right after the press shows it. -/
theorem cancel_shows_text_before_ready (s : State)
    (hl : s.s_current_text_layer = CurrentTextLayer.main)
    (hc : s.s_camera_state = some CameraState.in_progress)
    (hpos : 0 < s.s_timer_countdown_value)
    (htk : ∀ t ∈ s.timers, t.callback = Callback.camera_countdown_loop) :
    (∀ es : List Event, ∃ s1 tr, run (Event.select_click :: es) s = some s1 ∧
      s1.trace = s.trace ++ tr ∧ cancelled_before_ready tr = true) ∧
    (∀ t ∈ s.timers, ∃ s1, run [Event.select_click, Event.app_timer t.handle] s = some s1 ∧
      s1.countdown_text = "Timer cancelled." ∧
      s1.s_camera_state = some CameraState.cancelled ∧
      s1.trace = s.trace ++ [Effect.camera_state CameraState.cancelled,
        Effect.send_int_app_message MessageKey.KEY_CAPTURE s.s_timer_value, cancel_text,
        Effect.app_timer_register s.next_handle 2000
          Callback.set_camera_state_layer_ready]) := by
  have hsel : step Event.select_click s = some { s with
      s_camera_state := some CameraState.cancelled
      trace := s.trace ++ [Effect.camera_state CameraState.cancelled,
        Effect.send_int_app_message MessageKey.KEY_CAPTURE s.s_timer_value] } := by
    simp [step, select_click_handler, showing_start_layer, is_camera_state_ready,
      is_camera_state_in_progress, hl, hc, set_s_camera_state,
      send_int_app_message_with_callback, emit]
  have hnz : ¬ s.s_timer_countdown_value ≤ 0 := by omega
  constructor
  · intro es
    have hinv : CancelInv s.trace { s with
        s_camera_state := some CameraState.cancelled
        trace := s.trace ++ [Effect.camera_state CameraState.cancelled,
          Effect.send_int_app_message MessageKey.KEY_CAPTURE s.s_timer_value] } := by
      refine ⟨by simp, Or.inl ⟨rfl, hl, hpos, htk, _, rfl, ?_⟩⟩
      intro x hx
      simp at hx
      rcases hx with rfl | rfl <;> simp [cancel_text]
    obtain ⟨s1, h1, hi1⟩ := cancel_inv_run s.trace es _ hinv
    obtain ⟨tr, htr, hcb⟩ := cancel_inv_holds s.trace s1 hi1
    exact ⟨s1, tr, by simp [run, hsel, h1], htr, hcb⟩
  · intro t ht
    cases hf : s.timers.find? (fun x => x.handle == t.handle) with
    | none =>
      have := List.find?_eq_none.mp hf t ht
      simp at this
    | some t1 =>
      have hcb := htk t1 (List.mem_of_find?_eq_some hf)
      have hrun : run [Event.select_click, Event.app_timer t.handle] s =
          fire_app_timer t.handle { s with
            s_camera_state := some CameraState.cancelled
            trace := s.trace ++ [Effect.camera_state CameraState.cancelled,
              Effect.send_int_app_message MessageKey.KEY_CAPTURE s.s_timer_value] } := by
        rw [run, hsel]
        simp [run, step]
      rw [hrun]
      simp [fire_app_timer, hf, hcb, run_callback, camera_countdown_loop, hnz,
        is_camera_state_cancelled, text_layer_set_text, app_timer_register, emit, cancel_text]

theorem cancel_shows_text_before_ready_witness :
    counting_two.s_current_text_layer = CurrentTextLayer.main ∧
      counting_two.s_camera_state = some CameraState.in_progress ∧
      0 < counting_two.s_timer_countdown_value ∧
      ∃ s1 tr, run [Event.select_click, Event.up_click, Event.app_timer 1, Event.picture_taken,
          Event.app_timer 2] counting_two = some s1 ∧
        s1.trace = counting_two.trace ++ tr ∧ cancelled_before_ready tr = true := by
  refine ⟨by decide, by decide, by decide, ?_⟩
  exact (cancel_shows_text_before_ready counting_two (by decide) (by decide) (by decide)
    (by decide)).1 [Event.up_click, Event.app_timer 1, Event.picture_taken, Event.app_timer 2]

/-! ## Picture taken against the fallback timer (C6) -/

theorem not_pending_fires_nothing (h : Nat) (s : State) (hp : ∀ t ∈ s.timers, t.handle ≠ h) :
    step (Event.app_timer h) s = some s := by
  have hf : s.timers.find? (fun t => t.handle == h) = none := by
    apply List.find?_eq_none.mpr
    intro t ht
    simpa using hp t ht
  simp [step, fire_app_timer, hf]

theorem not_pending_extends (h : Nat) (s s1 : State) (he : Extends s s1)
    (hn : h < s.next_handle) (hp : ∀ t ∈ s.timers, t.handle ≠ h) :
    h < s1.next_handle ∧ ∀ t ∈ s1.timers, t.handle ≠ h := by
  obtain ⟨_, _, hle, hm⟩ := he
  refine ⟨by omega, ?_⟩
  intro t ht
  rcases hm t ht with h1 | h1
  · exact hp t h1
  · omega

theorem on_picture_taken_in_progress (s : State) (h : Nat)
    (hc : s.s_camera_state = some CameraState.in_progress) (hct : s.countdown_timer = some h) :
    ∃ s1, on_picture_taken s = some s1 ∧
      s1.s_camera_state = some CameraState.in_progress ∧
      s1.timers = s.timers.filter (fun t => t.handle != h) ++
        [AppTimer.mk s.next_handle 2000 Callback.set_camera_state_layer_ready] ∧
      s1.next_handle = s.next_handle + 1 ∧
      ∃ tr, s1.trace = s.trace ++ tr ∧ ready_count tr = 0 := by
  unfold on_picture_taken
  by_cases hz : 0 < s.s_timer_countdown_value
  · simp [is_camera_state_in_progress, hc, hct, hz, app_timer_register, vibes_double_pulse,
      text_layer_set_text, app_timer_cancel, emit, ready_count]
  · simp [is_camera_state_in_progress, hc, hct, hz, app_timer_register, vibes_double_pulse,
      text_layer_set_text, app_timer_cancel, emit, ready_count]

/-- C6, as stated, fails: select pressed while the fallback timer is pending
makes the camera state Cancelled; the picture-taken notification delivered
next is dropped, the fallback timer stays pending, and when it fires its
`set_camera_state_layer_ready` runs. -/
theorem picture_taken_dropped_fallback_runs :
    Reachable waiting_cancelled ∧
      waiting_cancelled.timers = [AppTimer.mk 2 5000 Callback.set_camera_state_layer_ready] ∧
      step Event.picture_taken waiting_cancelled = some waiting_cancelled ∧
      ∃ s1, run [Event.picture_taken, Event.app_timer 2] waiting_cancelled = some s1 ∧
        s1.s_camera_state = some CameraState.ready ∧
        s1.trace = waiting_cancelled.trace ++ ready_effects 0 := by
  refine ⟨⟨[Event.select_click, Event.select_click, Event.app_timer 1, Event.select_click],
    by decide⟩, by decide, by decide, _, rfl, by decide, by decide⟩

/-- C6, amended: when the capture is in progress and the pending fallback
timer is the one `countdown_timer` holds, a picture-taken notification is
handled, the camera state stays in progress, and the fallback timer is
cancelled: in every continuation no pending timer has its handle and its firing
does nothing.  When the fallback timer was the only pending timer, the settle
timer is then the only one, and when it fires the camera state is Ready, set
to Ready exactly once since the notification, with no timer pending. -/
theorem picture_taken_cancels_fallback (s : State) (h : Nat)
    (hc : s.s_camera_state = some CameraState.in_progress)
    (hp : AppTimer.mk h 5000 Callback.set_camera_state_layer_ready ∈ s.timers)
    (hct : s.countdown_timer = some h)
    (hwf : ∀ t ∈ s.timers, t.handle < s.next_handle) :
    ∃ s1, on_picture_taken s = some s1 ∧
      s1.s_camera_state = some CameraState.in_progress ∧
      (∀ es : List Event, ∃ s2, run es s1 = some s2 ∧
        (∀ t ∈ s2.timers, t.handle ≠ h) ∧ step (Event.app_timer h) s2 = some s2) ∧
      (s.timers = [AppTimer.mk h 5000 Callback.set_camera_state_layer_ready] →
        s1.timers = [AppTimer.mk s.next_handle 2000 Callback.set_camera_state_layer_ready] ∧
        ∃ s2 tr, fire_next s1 = some s2 ∧
          s2.s_camera_state = some CameraState.ready ∧ s2.timers = [] ∧
          s2.trace = s.trace ++ tr ∧ ready_count tr = 1) := by
  have hh : h < s.next_handle := hwf _ hp
  obtain ⟨s1, h1, hc1, ht1, hn1, tr1, htr1, hrc1⟩ := on_picture_taken_in_progress s h hc hct
  refine ⟨s1, h1, hc1, ?_, ?_⟩
  · intro es
    obtain ⟨s2, h2, he2⟩ := run_extends es s1 (by simp [hc1])
    have hnp := not_pending_extends h s1 s2 he2 (by omega) (by
      intro t ht
      rw [ht1] at ht
      rcases List.mem_append.mp ht with ht | ht
      · simpa using (List.mem_filter.mp ht).2
      · simp at ht
        subst ht
        simp
        omega)
    exact ⟨s2, h2, hnp.2, not_pending_fires_nothing h s2 hnp.2⟩
  · intro ht
    have ht2 : s1.timers =
        [AppTimer.mk s.next_handle 2000 Callback.set_camera_state_layer_ready] := by
      rw [ht1, ht]
      simp
    refine ⟨ht2, _, tr1 ++ ready_effects s1.s_timer_value,
      ready_timer_fires s1 s.next_handle 2000 ht2, rfl, rfl, ?_, ?_⟩
    · simp [htr1]
    · simp only [ready_count] at hrc1
      simp [ready_count, ready_effects, hrc1]

theorem picture_taken_cancels_fallback_witness :
    waiting_in_progress.s_camera_state = some CameraState.in_progress ∧
      waiting_in_progress.timers =
        [AppTimer.mk 2 5000 Callback.set_camera_state_layer_ready] ∧
      waiting_in_progress.countdown_timer = some 2 ∧
      ∃ s1, on_picture_taken waiting_in_progress = some s1 ∧
        s1.timers = [AppTimer.mk 3 2000 Callback.set_camera_state_layer_ready] ∧
        ∃ s2, run [Event.up_click, Event.app_timer 2] s1 = some s2 ∧
          step (Event.app_timer 2) s2 = some s2 := by
  obtain ⟨s1, h1, _, hes, hone⟩ :=
    picture_taken_cancels_fallback waiting_in_progress 2 (by decide) (by decide) (by decide)
      (by decide)
  obtain ⟨s2, h2, _, h3⟩ := hes [Event.up_click, Event.app_timer 2]
  exact ⟨by decide, by decide, by decide, s1, h1, (hone (by decide)).1, s2, h2, h3⟩

/-! ## One countdown run at a time (C5) -/

/-- C5, at a reachable state: a second picture-taken notification during the
settle delay arms a second settle timer; select after the first one starts a
countdown, the second one then sets Ready while that countdown's tick is
pending, and select starts another countdown.  Two `camera_countdown_loop`
ticks are pending, and when both have fired the shared counter has gone from 2
to 0 and two ticks are pending again. -/
theorem two_countdown_runs_pending :
    ∃ s, run double_run_events initial_state = some s ∧
      s.timers = [AppTimer.mk 4 1000 Callback.camera_countdown_loop,
        AppTimer.mk 5 1000 Callback.camera_countdown_loop] ∧
      pending_ticks s = 2 ∧ s.s_timer_countdown_value = 2 ∧
      ∃ s1, run [Event.app_timer 4, Event.app_timer 5] s = some s1 ∧
        s1.s_timer_countdown_value = 0 ∧ pending_ticks s1 = 2 := by
  refine ⟨_, rfl, by decide, by decide, by decide, _, rfl, by decide, by decide⟩

/-! ## A stale timer under the next capture (C2, C3) -/

/-- C2, at a reachable Ready state: after two picture-taken notifications
during one capture the second settle timer (handle 3) is still pending when
the first has set Ready.  Select pressed there with timer value 2, followed
only by timer firings (tick 4, settle timer 3, tick 5): the settle timer runs
`set_camera_state_layer_ready` under the countdown and puts the timer value
back on the main layer, so the texts shown since the press are 2, 1, 2, 0 and
not 2, 1, 0. -/
theorem stale_settle_breaks_sequence :
    Reachable stale_ready ∧ ReadyOnMain stale_ready ∧ stale_ready.s_timer_value = 2 ∧
      stale_ready.timers = [AppTimer.mk 3 2000 Callback.set_camera_state_layer_ready] ∧
      ∃ s1, run [Event.select_click, Event.app_timer 4, Event.app_timer 3, Event.app_timer 5]
          stale_ready = some s1 ∧
        s1.s_timer_countdown_value = 0 ∧
        main_texts (s1.trace.drop stale_ready.trace.length) = ["2", "1", "2", "0"] := by
  refine ⟨⟨[Event.select_click, Event.up_click, Event.up_click, Event.select_click,
    Event.picture_taken, Event.picture_taken, Event.app_timer 2], by decide⟩,
    by decide, by decide, by decide, _, rfl, by decide, by decide⟩

/-- C3, at two reachable Ready states.  From `stale_ready` (settle timer 3
pending), select and then only timer firings: the settle timer sets Ready
during the countdown and the fallback sets it again, so Ready is set twice
for one capture.  From `stale_tick` (tick 4 pending), select and then only
timer firings, each time the timer registered first: both ticks reach the zero
branch, the fallback is armed twice and both fallbacks set Ready. -/
theorem stale_timer_sets_ready_twice :
    (Reachable stale_ready ∧ ReadyOnMain stale_ready ∧ stale_ready.s_timer_value = 2 ∧
      ∃ s1, run [Event.select_click, Event.app_timer 4, Event.app_timer 3, Event.app_timer 5,
          Event.app_timer 6, Event.app_timer 7] stale_ready = some s1 ∧
        s1.timers = [] ∧ s1.s_camera_state = some CameraState.ready ∧
        ready_count (s1.trace.drop stale_ready.trace.length) = 2 ∧
        fallback_count (s1.trace.drop stale_ready.trace.length) = 1) ∧
    (Reachable stale_tick ∧ ReadyOnMain stale_tick ∧ stale_tick.s_timer_value = 2 ∧
      ∃ s0 s1, select_click_handler stale_tick = some s0 ∧ fire_all 6 s0 = some s1 ∧
        s1.timers = [] ∧ s1.s_camera_state = some CameraState.ready ∧
        ready_count (s1.trace.drop stale_tick.trace.length) = 2 ∧
        fallback_count (s1.trace.drop stale_tick.trace.length) = 2) := by
  refine ⟨⟨⟨[Event.select_click, Event.up_click, Event.up_click, Event.select_click,
      Event.picture_taken, Event.picture_taken, Event.app_timer 2], by decide⟩,
      by decide, by decide, _, rfl, by decide, by decide, by decide, by decide⟩,
    ⟨[Event.select_click, Event.up_click, Event.up_click, Event.select_click,
      Event.picture_taken, Event.picture_taken, Event.app_timer 2, Event.select_click,
      Event.app_timer 3], by decide⟩,
    by decide, by decide, _, _, rfl, rfl, by decide, by decide, by decide, by decide⟩

end OpenCameraRemote
